import Mathlib

/-!
# Verification of the SceneManager resource registry and render-state pipeline

Shallow embedding of `SceneManager.cpp` (CS-330 final project).  Texture and
material registries, the per-draw render-state setters, the transform
compositor, and the shipped scene's prepare/render sequence are translated
into Lean definitions; float-valued uniform data is modelled over `ℚ`
(the source stores exact decimal literals) and the transform matrices over
`ℝ`.  `m_pShaderManager` (a possibly-NULL pointer) is modelled by a Boolean
flag; a method that dereferences the pointer while it is NULL returns
`none` (undefined behavior), while a method that checks the pointer first
returns `some` of the unchanged state.
-/

/-- A 2-component vector of rationals (models `glm::vec2` uniform values). -/
abbrev Q2 : Type := ℚ × ℚ

/-- A 3-component vector of rationals (models `glm::vec3` uniform values). -/
abbrev Q3 : Type := ℚ × ℚ × ℚ

/-- A 4-component vector of rationals (models `glm::vec4` uniform values). -/
abbrev Q4 : Type := ℚ × ℚ × ℚ × ℚ

/-- One entry of the texture registry: models the `TEXTURE_ID` struct
(the GPU texture name `ID` and the caller-chosen `tag`).  Modelled from the
spec: `SceneManager.h` is not in the repository; the spec's TextureEntry is
`{tag, slotIndex, handle}` where the slot index is the entry's position. -/
structure TEXTURE_ID where
  ID : Nat
  tag : String
  deriving DecidableEq

/-- One entry of the material registry: models the `OBJECT_MATERIAL` struct.
Modelled from the spec: `SceneManager.h` is not in the repository; the spec's
MaterialEntry is `{tag, diffuseColor, specularColor, shininess}`. -/
structure OBJECT_MATERIAL where
  tag : String
  diffuseColor : Q3
  specularColor : Q3
  shininess : ℚ
  deriving DecidableEq

/-- A default-constructed `OBJECT_MATERIAL`, modelling the local
`OBJECT_MATERIAL material;` in `SetShaderMaterial` (its `glm` members are
value-uninitialized in C++; the model fixes them at zero). -/
def defaultOBJECT_MATERIAL : OBJECT_MATERIAL :=
  { tag := "", diffuseColor := (0, 0, 0), specularColor := (0, 0, 0), shininess := 0 }

/-- The parameters of the last `setMat4Value("model", ...)` push.  The actual
matrix value pushed is `modelViewMatrix` of these parameters (defined below
over `ℝ`); the state records the parameters so that the state stays
decidable. -/
structure TransformParams where
  scaleXYZ : Q3
  XrotationDegrees : ℚ
  YrotationDegrees : ℚ
  ZrotationDegrees : ℚ
  positionXYZ : Q3
  deriving DecidableEq

/-- A value pushed to one of the light-parameter uniforms. -/
inductive UniformVal where
  | vec3 : Q3 → UniformVal
  | flt : ℚ → UniformVal
  | bool : Bool → UniformVal
  deriving DecidableEq

/-- The last-pushed value of each uniform the source writes through
`m_pShaderManager` (the shader interface is a write-only sink; this record
is its observable state).  Field names follow the uniform names used in the
source (`bUseTexture`, `objectColor`, `objectTexture`, `UVscale`,
`material.*`, `bUseLighting`); the light-parameter writes of
`SetupSceneLights` are kept as an ordered trace since no claim reads them
individually. -/
structure ShaderState where
  bUseTexture : Bool
  objectColor : Q4
  objectTexture : Int
  UVscale : Q2
  materialDiffuseColor : Q3
  materialSpecularColor : Q3
  materialShininess : ℚ
  bUseLighting : Bool
  lightWrites : List (String × UniformVal)
  model : Option TransformParams
  deriving DecidableEq

/-- The `SceneManager` object state: the NULL-ness of `m_pShaderManager`,
the state of the pointed-to shader manager (meaningful when the pointer is
non-NULL), the texture registry `m_textureIDs[0 .. m_loadedTextures)` as a
list (the array cells past the counter are never read), and the
`m_objectMaterials` vector.  Modelled from the spec where `SceneManager.h`
is missing: the member declarations and the 16-slot array bound come from
the spec (§3) and the source's own comments ("up to 16 slots"). -/
structure SceneManager where
  pShaderNull : Bool
  shader : ShaderState
  textureIDs : List TEXTURE_ID
  objectMaterials : List OBJECT_MATERIAL
  deriving DecidableEq

/-- The state of the OpenGL texture-name allocator: `glGenTextures` hands
out `nextName` and appends it to `genNames`; `glDeleteTextures` would append
to `deletedNames` (the source never calls it). -/
structure GLState where
  nextName : Nat
  genNames : List Nat
  deletedNames : List Nat
  deriving DecidableEq

/-- `glGenTextures(1, &id)`: returns a fresh texture name and records the
allocation. -/
def glGenTexture (g : GLState) : Nat × GLState :=
  (g.nextName,
   { nextName := g.nextName + 1, genNames := g.genNames ++ [g.nextName],
     deletedNames := g.deletedNames })

/-- `glDeleteTextures(1, &id)`: records the release of a texture name.
The source's `DestroyGLTextures` never invokes this. -/
def glDeleteTexture (id : Nat) (g : GLState) : GLState :=
  { g with deletedNames := g.deletedNames ++ [id] }

/-- The result of a successful `stbi_load`: width, height and channel count
of the decoded image.  `CreateGLTexture` receives the decode outcome as an
`Option ImageData` parameter (the image codec is an external collaborator). -/
structure ImageData where
  width : Nat
  height : Nat
  colorChannels : Nat
  deriving DecidableEq

/-- Models `m_textureIDs[m_loadedTextures] = {textureID, tag}; m_loadedTextures++`.
The array has 16 cells (bound modelled from the spec, the header being
missing); a store at index ≥ 16 is an out-of-bounds write, i.e. undefined
behavior, modelled as `none`. -/
def registerTexture (textureID : Nat) (tag : String) (m : SceneManager) :
    Option SceneManager :=
  if m.textureIDs.length < 16 then
    some { m with textureIDs := m.textureIDs ++ [{ ID := textureID, tag := tag }] }
  else
    none

/-- `SceneManager::CreateGLTexture` (lines 76-140): on a successful decode,
generates a GL texture name, uploads for 3-channel (RGB) or 4-channel
(RGBA) images and registers the tag, returns `false` without touching the
registry for any other channel count (the generated name leaks), and
returns `false` untouched when the decode failed. -/
def CreateGLTexture (decoded : Option ImageData) (tag : String)
    (m : SceneManager) (g : GLState) : Option (Bool × SceneManager × GLState) :=
  match decoded with
  | some image =>
    let p := glGenTexture g
    if image.colorChannels = 3 then
      (registerTexture p.1 tag m).map (fun m2 => (true, m2, p.2))
    else if image.colorChannels = 4 then
      (registerTexture p.1 tag m).map (fun m2 => (true, m2, p.2))
    else
      some (false, m, p.2)
  | none => some (false, m, g)

/-- `SceneManager::BindGLTextures` (lines 148-156): binds each registered
texture to the texture unit matching its slot index.  The GL binding table
is not tracked by the model, so this is the identity on tracked state. -/
def BindGLTextures (m : SceneManager) (g : GLState) : SceneManager × GLState :=
  (m, g)

/-- The loop of `SceneManager::DestroyGLTextures`: for each registered
entry, `glGenTextures(1, &m_textureIDs[i].ID)` — the stored name is
overwritten by a freshly allocated one; nothing is deleted. -/
def destroyLoop : List TEXTURE_ID → GLState → List TEXTURE_ID × GLState
  | [], g => ([], g)
  | e :: rest, g =>
    let p := glGenTexture g
    let q := destroyLoop rest p.2
    ({ ID := p.1, tag := e.tag } :: q.1, q.2)

/-- `SceneManager::DestroyGLTextures` (lines 164-170). -/
def DestroyGLTextures (m : SceneManager) (g : GLState) : SceneManager × GLState :=
  let q := destroyLoop m.textureIDs g
  ({ m with textureIDs := q.1 }, q.2)

/-- The first-match search loop of `SceneManager::FindTextureID`
(lines 178-196): returns the matching entry's GL name, `-1` if no entry
matches. -/
def findTextureIDLoop : List TEXTURE_ID → String → Int
  | [], _ => -1
  | e :: rest, tag => if e.tag = tag then (e.ID : Int) else findTextureIDLoop rest tag

/-- `SceneManager::FindTextureID` (lines 178-196). -/
def FindTextureID (tag : String) (m : SceneManager) : Int :=
  findTextureIDLoop m.textureIDs tag

/-- The first-match search loop of `SceneManager::FindTextureSlot`
(lines 204-222): returns the matching entry's index (starting from the
accumulator), `-1` if no entry matches. -/
def findTextureSlotLoop : List TEXTURE_ID → String → Int → Int
  | [], _, _ => -1
  | e :: rest, tag, index =>
    if e.tag = tag then index else findTextureSlotLoop rest tag (index + 1)

/-- `SceneManager::FindTextureSlot` (lines 204-222). -/
def FindTextureSlot (tag : String) (m : SceneManager) : Int :=
  findTextureSlotLoop m.textureIDs tag 0

/-- The search loop of `SceneManager::FindMaterial` (lines 239-252): on the
first tag match, copies `diffuseColor`, `specularColor` and `shininess`
(not the tag) into the by-reference out-parameter; otherwise leaves the
out-parameter untouched. -/
def findMaterialLoop (tag : String) :
    List OBJECT_MATERIAL → OBJECT_MATERIAL → OBJECT_MATERIAL
  | [], material => material
  | e :: rest, material =>
    if e.tag = tag then
      { material with diffuseColor := e.diffuseColor,
                      specularColor := e.specularColor,
                      shininess := e.shininess }
    else
      findMaterialLoop tag rest material

/-- `SceneManager::FindMaterial` (lines 230-255): returns `false` only when
the material list is empty; otherwise runs the search loop and returns
`true` *unconditionally* — the `bFound` flag computed by the loop is never
returned (the final statement is `return(true)`). -/
def FindMaterial (tag : String) (mats : List OBJECT_MATERIAL)
    (material : OBJECT_MATERIAL) : Bool × OBJECT_MATERIAL :=
  if mats.length = 0 then
    (false, material)
  else
    (true, findMaterialLoop tag mats material)

/-- `SceneManager::SetTransformations` (lines 263-293): composes
`translation * rotationZ * rotationY * rotationX * scale` and pushes it to
the `"model"` uniform, guarded by a NULL check on `m_pShaderManager`.
The state records the parameters; the matrix value is `modelViewMatrix`
of them. -/
def SetTransformations (scaleXYZ : Q3)
    (XrotationDegrees YrotationDegrees ZrotationDegrees : ℚ)
    (positionXYZ : Q3) (m : SceneManager) : Option SceneManager :=
  if m.pShaderNull then
    some m
  else
    some { m with shader := { m.shader with
      model := some { scaleXYZ := scaleXYZ, XrotationDegrees := XrotationDegrees,
                      YrotationDegrees := YrotationDegrees,
                      ZrotationDegrees := ZrotationDegrees,
                      positionXYZ := positionXYZ } } }

/-- `SceneManager::SetShaderColor` (lines 301-320): guarded by a NULL
check; pushes `bUseTexture = false` and the RGBA color. -/
def SetShaderColor (redColorValue greenColorValue blueColorValue alphaValue : ℚ)
    (m : SceneManager) : Option SceneManager :=
  if m.pShaderNull then
    some m
  else
    some { m with shader := { m.shader with
      bUseTexture := false,
      objectColor := (redColorValue, greenColorValue, blueColorValue, alphaValue) } }

/-- `SceneManager::SetShaderTexture` (lines 328-339): guarded by a NULL
check; pushes `bUseTexture = true` and the slot index found for the tag
(`-1` if the tag is unregistered). -/
def SetShaderTexture (textureTag : String) (m : SceneManager) : Option SceneManager :=
  if m.pShaderNull then
    some m
  else
    some { m with shader := { m.shader with
      bUseTexture := true,
      objectTexture := FindTextureSlot textureTag m } }

/-- `SceneManager::SetTextureUVScale` (lines 347-353): guarded by a NULL
check; pushes the `"UVscale"` 2-vector. -/
def SetTextureUVScale (u v : ℚ) (m : SceneManager) : Option SceneManager :=
  if m.pShaderNull then
    some m
  else
    some { m with shader := { m.shader with UVscale := (u, v) } }

/-- `SceneManager::SetShaderMaterial` (lines 475-491): when the material
list is non-empty, calls `FindMaterial` on a default-constructed local and,
on a `true` return, pushes the three material fields *dereferencing
`m_pShaderManager` with no NULL check* (`none` = undefined behavior when
the pointer is NULL). -/
def SetShaderMaterial (materialTag : String) (m : SceneManager) : Option SceneManager :=
  if 0 < m.objectMaterials.length then
    let r := FindMaterial materialTag m.objectMaterials defaultOBJECT_MATERIAL
    if r.1 then
      if m.pShaderNull then
        none
      else
        some { m with shader := { m.shader with
          materialDiffuseColor := r.2.diffuseColor,
          materialSpecularColor := r.2.specularColor,
          materialShininess := r.2.shininess } }
    else
      some m
  else
    some m

/-- The light-parameter writes of `SceneManager::SetupSceneLights`
(lines 509-542), in source order (after the initial `bUseLighting` write,
which the model keeps in its own field). -/
def sceneLightWrites : List (String × UniformVal) :=
  [("pointLights[0].position", UniformVal.vec3 (0, 8.3, 0)),
   ("pointLights[0].ambient", UniformVal.vec3 (0.3, 0.15, 0.05)),
   ("pointLights[0].diffuse", UniformVal.vec3 (1.0, 0.6, 0.2)),
   ("pointLights[0].specular", UniformVal.vec3 (1.0, 0.8, 0.5)),
   ("pointLights[0].constant", UniformVal.flt 1.0),
   ("pointLights[0].linear", UniformVal.flt 0.09),
   ("pointLights[0].quadratic", UniformVal.flt 0.032),
   ("pointLights[0].bActive", UniformVal.bool true),
   ("directionalLight.direction", UniformVal.vec3 (-0.2, -1.0, -0.3)),
   ("directionalLight.ambient", UniformVal.vec3 (0.1, 0.1, 0.15)),
   ("directionalLight.diffuse", UniformVal.vec3 (0.2, 0.2, 0.3)),
   ("directionalLight.specular", UniformVal.vec3 (0.1, 0.1, 0.15)),
   ("directionalLight.bActive", UniformVal.bool true),
   ("pointLights[1].position", UniformVal.vec3 (2.5, 6.0, -2.0)),
   ("pointLights[1].ambient", UniformVal.vec3 (0.05, 0.02, 0.08)),
   ("pointLights[1].diffuse", UniformVal.vec3 (0.1, 0.05, 0.2)),
   ("pointLights[1].specular", UniformVal.vec3 (0.1, 0.1, 0.2)),
   ("pointLights[1].constant", UniformVal.flt 1.0),
   ("pointLights[1].linear", UniformVal.flt 0.14),
   ("pointLights[1].quadratic", UniformVal.flt 0.044),
   ("pointLights[1].bActive", UniformVal.bool true)]

/-- `SceneManager::SetupSceneLights` (lines 509-542): dereferences
`m_pShaderManager` with *no* NULL check; enables `bUseLighting` and writes
the fixed light topology. -/
def SetupSceneLights (m : SceneManager) : Option SceneManager :=
  if m.pShaderNull then
    none
  else
    some { m with shader := { m.shader with
      bUseLighting := true,
      lightWrites := m.shader.lightWrites ++ sceneLightWrites } }

/-- The seven materials appended by `SceneManager::DefineObjectMaterials`
(lines 413-467), in source order with the source's literal values. -/
def sceneMaterials : List OBJECT_MATERIAL :=
  [{ tag := "Candle", diffuseColor := (1.0, 0.85, 0.5),
     specularColor := (0.2, 0.2, 0.2), shininess := 4.0 },
   { tag := "Balloon", diffuseColor := (0.4, 0.1, 0.6),
     specularColor := (0.3, 0.2, 0.5), shininess := 16.0 },
   { tag := "WrappingPaper", diffuseColor := (0.7, 0.0, 0.0),
     specularColor := (1.0, 0.9, 0.3), shininess := 64.0 },
   { tag := "Wood", diffuseColor := (0.4, 0.25, 0.1),
     specularColor := (0.05, 0.05, 0.05), shininess := 4.0 },
   { tag := "PaperHat", diffuseColor := (0.8, 0.4, 0.6),
     specularColor := (0.1, 0.1, 0.1), shininess := 2.0 },
   { tag := "Cake", diffuseColor := (0.95, 0.8, 0.7),
     specularColor := (0.2, 0.15, 0.1), shininess := 8.0 },
   { tag := "Ceramic", diffuseColor := (0.9, 0.9, 0.95),
     specularColor := (0.9, 0.9, 0.9), shininess := 48.0 }]

/-- `SceneManager::DefineObjectMaterials` (lines 413-467): seven
`push_back` calls; touches no other state. -/
def DefineObjectMaterials (m : SceneManager) : SceneManager :=
  { m with objectMaterials := m.objectMaterials ++ sceneMaterials }

/-- `SceneManager::LoadSceneTextures` (lines 362-403): nine
`CreateGLTexture` calls with the source's literal tags (each Boolean return
is assigned to `bReturn` and never examined), followed by
`BindGLTextures`.  The nine decode outcomes are parameters (the image
codec is external).  Note no call uses the tag `"Cake"`. -/
def LoadSceneTextures
    (dParty dBlue dFloor dTable dPlate dFrost dFrostSides dBalloon dPresent :
      Option ImageData)
    (m : SceneManager) (g : GLState) : Option (SceneManager × GLState) := do
  let (_, m, g) ← CreateGLTexture dParty "Party" m g
  let (_, m, g) ← CreateGLTexture dBlue "Blue" m g
  let (_, m, g) ← CreateGLTexture dFloor "Floor" m g
  let (_, m, g) ← CreateGLTexture dTable "Table" m g
  let (_, m, g) ← CreateGLTexture dPlate "Plate" m g
  let (_, m, g) ← CreateGLTexture dFrost "Frost" m g
  let (_, m, g) ← CreateGLTexture dFrostSides "Frost_sides" m g
  let (_, m, g) ← CreateGLTexture dBalloon "balloon" m g
  let (_, m, g) ← CreateGLTexture dPresent "present" m g
  let (m, g) := BindGLTextures m g
  pure (m, g)

/-- `SceneManager::PrepareScene` (lines 546-568): `LoadSceneTextures`, then
`SetupSceneLights`, then `DefineObjectMaterials`, then the mesh-library
uploads (external, no tracked state). -/
def PrepareScene
    (dParty dBlue dFloor dTable dPlate dFrost dFrostSides dBalloon dPresent :
      Option ImageData)
    (m : SceneManager) (g : GLState) : Option (SceneManager × GLState) := do
  let (m, g) ← LoadSceneTextures dParty dBlue dFloor dTable dPlate dFrost
      dFrostSides dBalloon dPresent m g
  let m ← SetupSceneLights m
  let m := DefineObjectMaterials m
  pure (m, g)

/-- One mesh-library draw call, recording the primitive drawn and the
shader state observed by that draw. -/
structure DrawEvent where
  mesh : String
  shader : ShaderState
  deriving DecidableEq

/-- Draw step 1 of `SceneManager::RenderScene` (floor plane,
lines 589-615). -/
def renderFloor (m : SceneManager) : Option SceneManager := do
  let m ← SetTransformations (20.0, 1.0, 10.0) 0.0 0.0 0.0 (0.0, 0.0, 0.0) m
  let m ← SetShaderTexture "Floor" m
  let m ← SetTextureUVScale 2.50 2.50 m
  SetShaderMaterial "Ceramic" m

/-- Draw step 2 (cone, party hat, lines 617-630). -/
def renderHatCone (m : SceneManager) : Option SceneManager := do
  let m ← SetTransformations (1.0, 2.25, 1.0) 0.0 0.0 0.0 (5.0, 4.36, -1.5) m
  let m ← SetShaderTexture "Party" m
  let m ← SetTextureUVScale 1.0 1.0 m
  SetShaderMaterial "PaperHat" m

/-- Draw step 3 (sphere on top of the party hat, lines 632-645). -/
def renderHatSphere (m : SceneManager) : Option SceneManager := do
  let m ← SetTransformations (0.25, 0.25, 0.25) 0.0 0.0 0.0 (5.0, 6.80, -1.5) m
  let m ← SetShaderTexture "Blue" m
  let m ← SetTextureUVScale 1.0 1.0 m
  SetShaderMaterial "PaperHat" m

/-- Draw step 4 (flat box, napkin, lines 647-658): no material call. -/
def renderNapkin (m : SceneManager) : Option SceneManager := do
  let m ← SetTransformations (5.0, 0.01, 5.0) 0.0 35.0 0.0 (5.0, 4.33, -1.5) m
  let m ← SetShaderTexture "Blue" m
  SetTextureUVScale 1.0 1.0 m

/-- Draw step 5 (box, table top, lines 661-679). -/
def renderTableTop (m : SceneManager) : Option SceneManager := do
  let m ← SetTransformations (19.0, 0.50, 10.0) 0.0 0.0 0.0 (0.0, 4.0, 0.0) m
  let m ← SetShaderTexture "Table" m
  let m ← SetTextureUVScale 3.0 3.0 m
  SetShaderMaterial "Wood" m

/-- Draw steps 6-9, loop body (table legs, lines 681-707); the scale is
(0.3, 4.0, 0.3) and `legCenterY = 4.0 / 2.0 = 2.0`. -/
def renderTableLeg (pos : Q3) (m : SceneManager) : Option SceneManager := do
  let m ← SetTransformations (0.3, 4.0, 0.3) 0.0 0.0 0.0 pos m
  let m ← SetShaderTexture "Table" m
  let m ← SetTextureUVScale 1.0 1.0 m
  SetShaderMaterial "Wood" m

/-- Draw step 10 (cube, present, lines 710-723). -/
def renderPresent (m : SceneManager) : Option SceneManager := do
  let m ← SetTransformations (3.0, 3.0, 3.0) 0.0 (-35.0) 0.0 (-6.0, 5.76, -2.0) m
  let m ← SetShaderColor 0.6 0.1 0.1 1.0 m
  let m ← SetShaderTexture "present" m
  let m ← SetTextureUVScale 0.20 0.50 m
  SetShaderMaterial "WrappingPaper" m

/-- Draw step 11 (sphere, balloon, lines 725-737): the material is set
before the texture in this step. -/
def renderBalloon (m : SceneManager) : Option SceneManager := do
  let m ← SetTransformations (2.0, 2.50, 2.0) 0.0 0.0 0.0 (4.0, 12.0, -4.0) m
  let m ← SetShaderMaterial "Balloon" m
  let m ← SetShaderTexture "balloon" m
  SetTextureUVScale 1.0 1.0 m

/-- Draw step 12 (pyramid, balloon knot, lines 741-753). -/
def renderKnot (m : SceneManager) : Option SceneManager := do
  let m ← SetTransformations (0.3, 0.3, 0.3) 0.0 0.0 0.0 (4.0, 9.45, -4.0) m
  let m ← SetShaderTexture "balloon" m
  let m ← SetTextureUVScale 1.0 1.0 m
  SetShaderMaterial "Balloon" m

/-- Draw step 13 (thin cylinder, balloon string, lines 755-765). -/
def renderString (m : SceneManager) : Option SceneManager := do
  let m ← SetTransformations (0.025, 10.0, 0.05) 0.0 0.0 0.0 (4.0, 4.2, -4.0) m
  SetShaderColor 0.3 0.3 0.3 1.0 m

/-- Draw step 14 (cylinder, cake body, lines 767-781):
`SetShaderTexture("Frost_sides")` immediately followed by
`SetShaderTexture("Cake")`. -/
def renderCakeBody (m : SceneManager) : Option SceneManager := do
  let m ← SetTransformations (3.0, 2.0, 3.0) 0.0 0.0 0.0 (0.0, 4.33, 0.0) m
  let m ← SetShaderTexture "Frost_sides" m
  let m ← SetShaderTexture "Cake" m
  SetTextureUVScale 1.50 1.50 m

/-- Draw step 15 (cylinder, cake top icing, lines 783-790):
`SetShaderTexture("Frost")` immediately followed by
`SetShaderTexture("Cake")`. -/
def renderCakeTop (m : SceneManager) : Option SceneManager := do
  let m ← SetTransformations (3.01, 0.1, 3.01) 0.0 0.0 0.0 (0.0, 6.18, 0.0) m
  let m ← SetShaderTexture "Frost" m
  let m ← SetShaderTexture "Cake" m
  SetTextureUVScale 1.0 1.0 m

/-- Draw step 16 (cylinder, plate, lines 792-805). -/
def renderPlate (m : SceneManager) : Option SceneManager := do
  let m ← SetTransformations (3.5, 0.1, 3.5) 0.0 0.0 0.0 (0.0, 4.33, 0.0) m
  let m ← SetShaderTexture "Plate" m
  let m ← SetTextureUVScale 1.0 1.0 m
  SetShaderMaterial "Ceramic" m

/-- Draw step 17 (cylinder, candle, lines 807-817). -/
def renderCandle (m : SceneManager) : Option SceneManager := do
  let m ← SetTransformations (0.1, 2.0, 0.1) 0.0 0.0 0.0 (0.0, 6.33, 0.0) m
  let m ← SetShaderColor 0.9 0.9 0.4 1.0 m
  SetShaderMaterial "Candle" m

/-- The ordered draw-step list of `SceneManager::RenderScene`
(lines 576-822): each step pairs the primitive drawn with the
transform/render-state calls made before its draw call, in source order. -/
def drawSteps : List (String × (SceneManager → Option SceneManager)) :=
  [("plane", renderFloor),
   ("cone", renderHatCone),
   ("sphere", renderHatSphere),
   ("box", renderNapkin),
   ("box", renderTableTop),
   ("box", renderTableLeg (-9.2, 2.0, -4.7)),
   ("box", renderTableLeg (9.2, 2.0, -4.7)),
   ("box", renderTableLeg (-9.2, 2.0, 4.7)),
   ("box", renderTableLeg (9.2, 2.0, 4.7)),
   ("box", renderPresent),
   ("sphere", renderBalloon),
   ("pyramid4", renderKnot),
   ("cylinder", renderString),
   ("cylinder", renderCakeBody),
   ("cylinder", renderCakeTop),
   ("cylinder", renderPlate),
   ("cylinder", renderCandle)]

/-- Executes draw steps in order, recording for each draw call the
primitive drawn and the shader state observed at that draw. -/
def runSteps : List (String × (SceneManager → Option SceneManager)) →
    SceneManager → Option (SceneManager × List DrawEvent)
  | [], m => some (m, [])
  | s :: rest, m =>
    match s.2 m with
    | none => none
    | some m2 =>
      match runSteps rest m2 with
      | none => none
      | some r => some (r.1, DrawEvent.mk s.1 m2.shader :: r.2)

/-- `SceneManager::RenderScene` (lines 576-822). -/
def RenderScene (m : SceneManager) : Option (SceneManager × List DrawEvent) :=
  runSteps drawSteps m

/-- The initial uniform state (GL uniforms start zeroed). -/
def initialShaderState : ShaderState :=
  { bUseTexture := false, objectColor := (0, 0, 0, 0), objectTexture := 0,
    UVscale := (0, 0), materialDiffuseColor := (0, 0, 0),
    materialSpecularColor := (0, 0, 0), materialShininess := 0,
    bUseLighting := false, lightWrites := [], model := none }

/-- The `SceneManager` as the program constructs it: a non-NULL shader
manager and empty registries (the member vectors start empty and
`m_loadedTextures` starts at 0, per the spec, the header being missing). -/
def initialSceneManager : SceneManager :=
  { pShaderNull := false, shader := initialShaderState,
    textureIDs := [], objectMaterials := [] }

/-- An initial GL allocator state (texture names start at 1). -/
def initialGLState : GLState :=
  { nextName := 1, genNames := [], deletedNames := [] }

/-! ## The transform compositor (`SetTransformations`, lines 263-293)

The matrix value pushed to the `"model"` uniform.  `glm` matrices over
floats are modelled as `Matrix (Fin 4) (Fin 4) ℝ`; `glm::rotate(angle,
axis)` for the three unit axes, `glm::scale` and `glm::translate` are the
standard homogeneous matrices, and `glm::radians` is multiplication by
π/180.  No validation is performed on any input (a negative or zero scale
is passed through unchanged). -/

/-- A 3-component real vector (models a `glm::vec3` argument). -/
abbrev R3 : Type := ℝ × ℝ × ℝ

noncomputable section

/-- `glm::radians`: degrees to radians. -/
def radians (degrees : ℝ) : ℝ := degrees * (Real.pi / 180)

/-- `glm::scale(s)`. -/
def glmScale (s : R3) : Matrix (Fin 4) (Fin 4) ℝ :=
  Matrix.of ![![s.1, 0, 0, 0], ![0, s.2.1, 0, 0], ![0, 0, s.2.2, 0], ![0, 0, 0, 1]]

/-- `glm::rotate(t, vec3(1,0,0))`. -/
def glmRotateX (t : ℝ) : Matrix (Fin 4) (Fin 4) ℝ :=
  Matrix.of ![![1, 0, 0, 0],
              ![0, Real.cos t, -Real.sin t, 0],
              ![0, Real.sin t, Real.cos t, 0],
              ![0, 0, 0, 1]]

/-- `glm::rotate(t, vec3(0,1,0))`. -/
def glmRotateY (t : ℝ) : Matrix (Fin 4) (Fin 4) ℝ :=
  Matrix.of ![![Real.cos t, 0, Real.sin t, 0],
              ![0, 1, 0, 0],
              ![-Real.sin t, 0, Real.cos t, 0],
              ![0, 0, 0, 1]]

/-- `glm::rotate(t, vec3(0,0,1))`. -/
def glmRotateZ (t : ℝ) : Matrix (Fin 4) (Fin 4) ℝ :=
  Matrix.of ![![Real.cos t, -Real.sin t, 0, 0],
              ![Real.sin t, Real.cos t, 0, 0],
              ![0, 0, 1, 0],
              ![0, 0, 0, 1]]

/-- `glm::translate(p)`. -/
def glmTranslate (p : R3) : Matrix (Fin 4) (Fin 4) ℝ :=
  Matrix.of ![![1, 0, 0, p.1], ![0, 1, 0, p.2.1], ![0, 0, 1, p.2.2], ![0, 0, 0, 1]]

/-- The matrix `SetTransformations` pushes (line 287):
`modelView = translation * rotationZ * rotationY * rotationX * scale`,
with the rotation angles converted from degrees to radians
(lines 279-285). -/
def modelViewMatrix (scaleXYZ : R3)
    (XrotationDegrees YrotationDegrees ZrotationDegrees : ℝ)
    (positionXYZ : R3) : Matrix (Fin 4) (Fin 4) ℝ :=
  glmTranslate positionXYZ *
    glmRotateZ (radians ZrotationDegrees) *
    glmRotateY (radians YrotationDegrees) *
    glmRotateX (radians XrotationDegrees) *
    glmScale scaleXYZ

/-- Written from the spec's words, for comparison with the source's
matrix: componentwise scaling ("scale first"). -/
def scaleAction (s p : R3) : R3 := (s.1 * p.1, s.2.1 * p.2.1, s.2.2 * p.2.2)

/-- Written from the spec's words: rotation of a point about the X axis. -/
def rotateXAction (t : ℝ) (p : R3) : R3 :=
  (p.1, Real.cos t * p.2.1 - Real.sin t * p.2.2,
   Real.sin t * p.2.1 + Real.cos t * p.2.2)

/-- Written from the spec's words: rotation of a point about the Y axis. -/
def rotateYAction (t : ℝ) (p : R3) : R3 :=
  (Real.cos t * p.1 + Real.sin t * p.2.2, p.2.1,
   -Real.sin t * p.1 + Real.cos t * p.2.2)

/-- Written from the spec's words: rotation of a point about the Z axis. -/
def rotateZAction (t : ℝ) (p : R3) : R3 :=
  (Real.cos t * p.1 - Real.sin t * p.2.1,
   Real.sin t * p.1 + Real.cos t * p.2.1, p.2.2)

/-- Written from the spec's words ("scale first, then rotate about X, then
Y, then Z, then translate", with degree inputs converted to radians): the
world point a local point should reach under the spec's composition
order. -/
def specComposedPoint (s : R3) (xr yr zr : ℝ) (t p : R3) : R3 :=
  let q := rotateZAction (radians zr)
    (rotateYAction (radians yr) (rotateXAction (radians xr) (scaleAction s p)))
  (t.1 + q.1, t.2.1 + q.2.1, t.2.2 + q.2.2)

end

/-! ## Matrix evaluation lemmas -/

lemma glmScale_mulVec (s : R3) (x y z w : ℝ) :
    (glmScale s).mulVec ![x, y, z, w] = ![s.1 * x, s.2.1 * y, s.2.2 * z, w] := by
  funext i
  fin_cases i <;>
    simp [glmScale, Matrix.mulVec, Matrix.dotProduct, Fin.sum_univ_four]

lemma glmRotateX_mulVec (t x y z w : ℝ) :
    (glmRotateX t).mulVec ![x, y, z, w] =
      ![x, Real.cos t * y - Real.sin t * z, Real.sin t * y + Real.cos t * z, w] := by
  funext i
  fin_cases i <;>
    simp [glmRotateX, Matrix.mulVec, Matrix.dotProduct, Fin.sum_univ_four] <;> ring

lemma glmRotateY_mulVec (t x y z w : ℝ) :
    (glmRotateY t).mulVec ![x, y, z, w] =
      ![Real.cos t * x + Real.sin t * z, y, -Real.sin t * x + Real.cos t * z, w] := by
  funext i
  fin_cases i <;>
    simp [glmRotateY, Matrix.mulVec, Matrix.dotProduct, Fin.sum_univ_four] <;> ring

lemma glmRotateZ_mulVec (t x y z w : ℝ) :
    (glmRotateZ t).mulVec ![x, y, z, w] =
      ![Real.cos t * x - Real.sin t * y, Real.sin t * x + Real.cos t * y, z, w] := by
  funext i
  fin_cases i <;>
    simp [glmRotateZ, Matrix.mulVec, Matrix.dotProduct, Fin.sum_univ_four] <;> ring

lemma glmTranslate_mulVec (p : R3) (x y z w : ℝ) :
    (glmTranslate p).mulVec ![x, y, z, w] =
      ![x + p.1 * w, y + p.2.1 * w, z + p.2.2 * w, w] := by
  funext i
  fin_cases i <;>
    simp [glmTranslate, Matrix.mulVec, Matrix.dotProduct, Fin.sum_univ_four] <;> ring

/-- The action of the composed model matrix on a homogeneous point: the
source's matrix product applies the scale first, then the X, Y and Z
rotations, then the translation. -/
lemma modelViewMatrix_mulVec (s : R3) (xr yr zr : ℝ) (t p : R3) :
    (modelViewMatrix s xr yr zr t).mulVec ![p.1, p.2.1, p.2.2, 1] =
      ![(specComposedPoint s xr yr zr t p).1,
        (specComposedPoint s xr yr zr t p).2.1,
        (specComposedPoint s xr yr zr t p).2.2, 1] := by
  rw [modelViewMatrix]
  rw [← Matrix.mulVec_mulVec, ← Matrix.mulVec_mulVec, ← Matrix.mulVec_mulVec,
      ← Matrix.mulVec_mulVec]
  rw [glmScale_mulVec, glmRotateX_mulVec, glmRotateY_mulVec, glmRotateZ_mulVec,
      glmTranslate_mulVec]
  unfold specComposedPoint scaleAction rotateXAction rotateYAction rotateZAction
  funext i
  fin_cases i <;> simp <;> ring

/-- Evaluation of the composed matrix at the spec's test inputs:
scale (2,1,1), rotation (0,90,0) degrees, translation (0,0,5), applied to
the local point (1,0,0).  The scale gives (2,0,0); the +90° rotation about
Y sends +X to −Z, giving (0,0,−2); the translation gives (0,0,3). -/
lemma modelView_test_point_eval :
    (modelViewMatrix (2, 1, 1) 0 90 0 (0, 0, 5)).mulVec ![1, 0, 0, 1] =
      ![0, 0, 3, 1] := by
  have h := modelViewMatrix_mulVec (2, 1, 1) 0 90 0 (0, 0, 5) (1, 0, 0)
  have h90 : radians 90 = Real.pi / 2 := by
    unfold radians; ring
  have h0 : radians 0 = 0 := by
    unfold radians; ring
  rw [h]
  unfold specComposedPoint scaleAction rotateXAction rotateYAction rotateZAction
  rw [h90, h0]
  norm_num [Real.cos_pi_div_two, Real.sin_pi_div_two]

/-- **C3**: for every scale vector, per-axis rotation angles in degrees and
translation vector, `SetTransformations` pushes (when the shader-manager
pointer is non-NULL) exactly the matrix `Translation · RotationZ ·
RotationY · RotationX · Scale` — its action on every point applies the
scale first, then the rotation about X, then Y, then Z, then the
translation, with angles converted from degrees to radians.  The
quantification is over *all* real inputs: no validation is performed, a
negative or zero scale is passed through unchanged. -/
theorem setTransformations_pushes_trs_composition :
    (∀ (sq : Q3) (xq yq zq : ℚ) (pq : Q3) (m : SceneManager),
      m.pShaderNull = false →
      SetTransformations sq xq yq zq pq m =
        some { m with shader := { m.shader with
          model := some { scaleXYZ := sq, XrotationDegrees := xq,
                          YrotationDegrees := yq, ZrotationDegrees := zq,
                          positionXYZ := pq } } }) ∧
    (∀ (s : R3) (xr yr zr : ℝ) (t p : R3),
      (modelViewMatrix s xr yr zr t).mulVec ![p.1, p.2.1, p.2.2, 1] =
        ![(specComposedPoint s xr yr zr t p).1,
          (specComposedPoint s xr yr zr t p).2.1,
          (specComposedPoint s xr yr zr t p).2.2, 1]) := by
  constructor
  · intro sq xq yq zq pq m h
    simp [SetTransformations, h]
  · exact modelViewMatrix_mulVec

/-- Witness for the hypotheses of `setTransformations_pushes_trs_composition`
at concrete inputs. -/
theorem setTransformations_pushes_trs_composition_witness :
    initialSceneManager.pShaderNull = false ∧
    SetTransformations (2, 1, 1) 0 90 0 (0, 0, 5) initialSceneManager =
      some { initialSceneManager with shader := { initialShaderState with
        model := some { scaleXYZ := (2, 1, 1), XrotationDegrees := 0,
                        YrotationDegrees := 90, ZrotationDegrees := 0,
                        positionXYZ := (0, 0, 5) } } } :=
  ⟨rfl, setTransformations_pushes_trs_composition.1 (2, 1, 1) 0 90 0 (0, 0, 5)
    initialSceneManager rfl⟩

/-- **C4** (counterexample): the model matrix for scale (2,1,1), rotation
(0,90,0) degrees, translation (0,0,5) does *not* map the local point
(1,0,0) to (0,0,7): the +90° rotation about Y sends +X to −Z, not +Z, so
the image is (0,0,3), four units away from the claimed target (and also
not the (0,0,5) the same spec sentence names). -/
theorem modelView_spec_point_counterexample :
    ¬ ((modelViewMatrix (2, 1, 1) 0 90 0 (0, 0, 5)).mulVec ![1, 0, 0, 1] =
        ![0, 0, 7, 1]) := by
  rw [modelView_test_point_eval]
  intro h
  have h2 := congrFun h 2
  simp at h2

/-- **C4** (amended): for scale (2,1,1), rotation (0,90,0) degrees,
translation (0,0,5), the composed model matrix maps the local point
(1,0,0) to the world point (0,0,3): scale doubles X to (2,0,0), the +90°
Y-rotation maps +X to −Z giving (0,0,−2), and the translation adds
(0,0,5). -/
theorem modelView_concrete_point_maps_to_0_0_3 :
    (modelViewMatrix (2, 1, 1) 0 90 0 (0, 0, 5)).mulVec ![1, 0, 0, 1] =
      ![0, 0, 3, 1] :=
  modelView_test_point_eval

/-- A `SceneManager` whose material registry holds one entry ("Candle")
and whose last-pushed material uniforms are that entry's (nonzero)
values. -/
def materialMissScene : SceneManager :=
  { pShaderNull := false,
    shader := { initialShaderState with
      materialDiffuseColor := (1, 0.85, 0.5),
      materialSpecularColor := (0.2, 0.2, 0.2),
      materialShininess := 4 },
    textureIDs := [],
    objectMaterials := [{ tag := "Candle", diffuseColor := (1, 0.85, 0.5),
                          specularColor := (0.2, 0.2, 0.2), shininess := 4 }] }

/-- **C1** (code defect, evaluated at the failing input): calling
`SetShaderMaterial` with a tag absent from a *non-empty* registry does
push material uniforms: `FindMaterial` returns `true` whenever the list is
non-empty (its final statement is `return(true)`; the `bFound` flag is
dead), so the three `material.*` uniforms are overwritten with the
default-constructed local material — the last-pushed values do *not*
remain what they were, contradicting the claim. -/
theorem setShaderMaterial_absentTag_overwrites_material :
    (SetShaderMaterial "Missing" materialMissScene).map
        (fun m2 => (m2.shader.materialDiffuseColor,
                    m2.shader.materialSpecularColor,
                    m2.shader.materialShininess)) =
      some ((0, 0, 0), (0, 0, 0), 0) ∧
    materialMissScene.shader.materialDiffuseColor = (1, 0.85, 0.5) ∧
    materialMissScene.shader.materialShininess = 4 := by
  refine ⟨rfl, rfl, rfl⟩

/-- Frame of `SetShaderMaterial`: whenever it returns (no NULL
dereference), every field other than the three material uniforms is
unchanged. -/
lemma setShaderMaterial_frame (tag : String) (m m2 : SceneManager)
    (hm : SetShaderMaterial tag m = some m2) :
    m2.pShaderNull = m.pShaderNull ∧
    m2.textureIDs = m.textureIDs ∧
    m2.objectMaterials = m.objectMaterials ∧
    m2.shader.bUseTexture = m.shader.bUseTexture ∧
    m2.shader.objectColor = m.shader.objectColor ∧
    m2.shader.objectTexture = m.shader.objectTexture ∧
    m2.shader.UVscale = m.shader.UVscale ∧
    m2.shader.bUseLighting = m.shader.bUseLighting ∧
    m2.shader.lightWrites = m.shader.lightWrites ∧
    m2.shader.model = m.shader.model := by
  by_cases hl : 0 < m.objectMaterials.length
  · have hne : m.objectMaterials.length ≠ 0 := by omega
    by_cases hp : m.pShaderNull
    · simp [SetShaderMaterial, hl, hne, FindMaterial, hp] at hm
    · simp [SetShaderMaterial, hl, hne, FindMaterial, hp] at hm
      subst hm
      simp_all
  · simp [SetShaderMaterial, hl] at hm
    subst hm
    simp

/-- **C2**: each render-state setter writes only its own uniforms —
`SetShaderColor` the color vector and the use-texture flag,
`SetShaderTexture` the sampler slot and the use-texture flag,
`SetTextureUVScale` only the UV 2-vector, `SetShaderMaterial` only the
three material fields — so a uniform not set by a step keeps the previous
step's value; in particular a step that sets only a material after a step
that set texture "Floor" and UV scale (2.5, 2.5) still draws with
use-texture = true, the "Floor" slot, and UV (2.5, 2.5). -/
theorem renderState_setters_write_only_own_uniforms
    (m : SceneManager) (h : m.pShaderNull = false)
    (r g b a u v : ℚ) (textureTag materialTag : String) :
    SetShaderColor r g b a m =
      some { m with shader :=
        { m.shader with bUseTexture := false, objectColor := (r, g, b, a) } } ∧
    SetShaderTexture textureTag m =
      some { m with shader :=
        { m.shader with bUseTexture := true,
                        objectTexture := FindTextureSlot textureTag m } } ∧
    SetTextureUVScale u v m =
      some { m with shader := { m.shader with UVscale := (u, v) } } ∧
    (∀ m2, SetShaderMaterial materialTag m = some m2 →
      m2.shader.bUseTexture = m.shader.bUseTexture ∧
      m2.shader.objectColor = m.shader.objectColor ∧
      m2.shader.objectTexture = m.shader.objectTexture ∧
      m2.shader.UVscale = m.shader.UVscale ∧
      m2.shader.bUseLighting = m.shader.bUseLighting ∧
      m2.shader.lightWrites = m.shader.lightWrites ∧
      m2.shader.model = m.shader.model) ∧
    (∀ mB, ((SetShaderTexture "Floor" m).bind (SetTextureUVScale 2.5 2.5)).bind
        (SetShaderMaterial "Wood") = some mB →
      mB.shader.bUseTexture = true ∧
      mB.shader.objectTexture = FindTextureSlot "Floor" m ∧
      mB.shader.UVscale = (2.5, 2.5)) := by
  refine ⟨by simp [SetShaderColor, h], by simp [SetShaderTexture, h],
          by simp [SetTextureUVScale, h], ?_, ?_⟩
  · intro m2 hm
    obtain ⟨-, -, -, h4, h5, h6, h7, h8, h9, h10⟩ :=
      setShaderMaterial_frame materialTag m m2 hm
    exact ⟨h4, h5, h6, h7, h8, h9, h10⟩
  · intro mB hB
    simp only [SetShaderTexture, SetTextureUVScale, h, Bool.false_eq_true,
      if_false, Option.some_bind] at hB
    obtain ⟨-, -, -, h4, -, h6, h7, -, -, -⟩ :=
      setShaderMaterial_frame "Wood" _ mB hB
    refine ⟨?_, ?_, ?_⟩
    · simpa using h4
    · simpa using h6
    · simpa using h7

/-- Witness for `renderState_setters_write_only_own_uniforms` at a
concrete state. -/
theorem renderState_setters_write_only_own_uniforms_witness :
    materialMissScene.pShaderNull = false ∧
    (SetTextureUVScale 2.5 2.5 materialMissScene =
      some { materialMissScene with shader :=
        { materialMissScene.shader with UVscale := (2.5, 2.5) } }) :=
  ⟨rfl, (renderState_setters_write_only_own_uniforms materialMissScene rfl
      0 0 0 0 2.5 2.5 "Floor" "Wood").2.2.1⟩

/-- A `SceneManager` whose `m_pShaderManager` is NULL, with a non-empty
material registry containing the tag "Wood". -/
def nullShaderScene : SceneManager :=
  { pShaderNull := true, shader := initialShaderState, textureIDs := [],
    objectMaterials := [{ tag := "Wood", diffuseColor := (0.4, 0.25, 0.1),
                          specularColor := (0.05, 0.05, 0.05), shininess := 4 }] }

/-- **C10**: the NULL-shader-manager guard is asymmetric: with a NULL
pointer, `SetTransformations`, `SetShaderColor`, `SetShaderTexture` and
`SetTextureUVScale` perform no shader write and return safely (the state
is returned unchanged), whereas `SetShaderMaterial` — when the material
registry is non-empty and the tag is present — and `SetupSceneLights`
dereference the NULL pointer (modelled as `none`); and with a non-NULL
pointer every one of the six operations is safe (returns `some`). -/
theorem null_shader_guard_asymmetry :
    (∀ (sq : Q3) (xq yq zq : ℚ) (pq : Q3) (m : SceneManager),
      m.pShaderNull = true → SetTransformations sq xq yq zq pq m = some m) ∧
    (∀ (r g b a : ℚ) (m : SceneManager),
      m.pShaderNull = true → SetShaderColor r g b a m = some m) ∧
    (∀ (t : String) (m : SceneManager),
      m.pShaderNull = true → SetShaderTexture t m = some m) ∧
    (∀ (u v : ℚ) (m : SceneManager),
      m.pShaderNull = true → SetTextureUVScale u v m = some m) ∧
    (∀ (t : String) (m : SceneManager),
      m.pShaderNull = true → 0 < m.objectMaterials.length →
      (∃ e ∈ m.objectMaterials, e.tag = t) → SetShaderMaterial t m = none) ∧
    (∀ m : SceneManager, m.pShaderNull = true → SetupSceneLights m = none) ∧
    (∀ (sq : Q3) (xq yq zq : ℚ) (pq : Q3) (m : SceneManager),
      m.pShaderNull = false → (SetTransformations sq xq yq zq pq m).isSome = true) ∧
    (∀ (r g b a : ℚ) (m : SceneManager),
      m.pShaderNull = false → (SetShaderColor r g b a m).isSome = true) ∧
    (∀ (t : String) (m : SceneManager),
      m.pShaderNull = false → (SetShaderTexture t m).isSome = true) ∧
    (∀ (u v : ℚ) (m : SceneManager),
      m.pShaderNull = false → (SetTextureUVScale u v m).isSome = true) ∧
    (∀ (t : String) (m : SceneManager),
      m.pShaderNull = false → (SetShaderMaterial t m).isSome = true) ∧
    (∀ m : SceneManager, m.pShaderNull = false → (SetupSceneLights m).isSome = true) := by
  refine ⟨?_, ?_, ?_, ?_, ?_, ?_, ?_, ?_, ?_, ?_, ?_, ?_⟩
  · intro sq xq yq zq pq m h; simp [SetTransformations, h]
  · intro r g b a m h; simp [SetShaderColor, h]
  · intro t m h; simp [SetShaderTexture, h]
  · intro u v m h; simp [SetTextureUVScale, h]
  · intro t m h hl _
    have hne : m.objectMaterials.length ≠ 0 := by omega
    simp [SetShaderMaterial, hl, hne, FindMaterial, h]
  · intro m h; simp [SetupSceneLights, h]
  · intro sq xq yq zq pq m h; simp [SetTransformations, h]
  · intro r g b a m h; simp [SetShaderColor, h]
  · intro t m h; simp [SetShaderTexture, h]
  · intro u v m h; simp [SetTextureUVScale, h]
  · intro t m h
    by_cases hl : 0 < m.objectMaterials.length
    · have hne : m.objectMaterials.length ≠ 0 := by omega
      simp [SetShaderMaterial, hl, hne, FindMaterial, h]
    · simp [SetShaderMaterial, hl]
  · intro m h; simp [SetupSceneLights, h]

/-- Witness for `null_shader_guard_asymmetry`: the guarded setter is a
safe no-op on a NULL-pointer state, while `SetShaderMaterial` (registry
non-empty, tag present) and `SetupSceneLights` hit the NULL dereference;
on the non-NULL initial state `SetShaderMaterial` is safe. -/
theorem null_shader_guard_asymmetry_witness :
    SetShaderColor 1 1 1 1 nullShaderScene = some nullShaderScene ∧
    SetShaderMaterial "Wood" nullShaderScene = none ∧
    SetupSceneLights nullShaderScene = none ∧
    (SetShaderMaterial "Wood" initialSceneManager).isSome = true :=
  ⟨null_shader_guard_asymmetry.2.1 1 1 1 1 nullShaderScene rfl,
   null_shader_guard_asymmetry.2.2.2.2.1 "Wood" nullShaderScene rfl (by decide)
     ⟨{ tag := "Wood", diffuseColor := (0.4, 0.25, 0.1),
        specularColor := (0.05, 0.05, 0.05), shininess := 4 },
      List.mem_singleton.mpr rfl, rfl⟩,
   null_shader_guard_asymmetry.2.2.2.2.2.1 nullShaderScene rfl,
   null_shader_guard_asymmetry.2.2.2.2.2.2.2.2.2.2.1 "Wood" initialSceneManager rfl⟩

/-- **C5**: provided the registry is not already at the 16-entry array
capacity (beyond which the source's store is an out-of-bounds write,
treated by C6), `CreateGLTexture` returns failure exactly when the decode
failed or the channel count is neither 3 nor 4; on failure the
`SceneManager` state is unchanged (no entry appended, count unchanged),
and on success exactly one entry tagged with the argument tag is
appended. -/
theorem createGLTexture_failure_iff_and_state
    (d : Option ImageData) (tag : String) (m : SceneManager) (g : GLState)
    (hcap : m.textureIDs.length < 16) :
    ∃ b m2 g2, CreateGLTexture d tag m g = some (b, m2, g2) ∧
      ((b = false) ↔ (d = none ∨ ∃ img, d = some img ∧
        img.colorChannels ≠ 3 ∧ img.colorChannels ≠ 4)) ∧
      (b = false → m2 = m) ∧
      (b = true →
        m2.textureIDs = m.textureIDs ++ [{ ID := g.nextName, tag := tag }] ∧
        m2.pShaderNull = m.pShaderNull ∧ m2.shader = m.shader ∧
        m2.objectMaterials = m.objectMaterials) := by
  cases d with
  | none =>
    refine ⟨false, m, g, rfl, by simp, fun _ => rfl, fun hb => by simp at hb⟩
  | some img =>
    by_cases h3 : img.colorChannels = 3
    · refine ⟨true,
        { m with textureIDs := m.textureIDs ++ [{ ID := g.nextName, tag := tag }] },
        (glGenTexture g).2, ?_, by simp [h3], fun hb => by simp at hb,
        fun _ => ⟨rfl, rfl, rfl, rfl⟩⟩
      simp [CreateGLTexture, glGenTexture, registerTexture, h3, hcap]
    · by_cases h4 : img.colorChannels = 4
      · refine ⟨true,
          { m with textureIDs := m.textureIDs ++ [{ ID := g.nextName, tag := tag }] },
          (glGenTexture g).2, ?_, by simp [h4], fun hb => by simp at hb,
          fun _ => ⟨rfl, rfl, rfl, rfl⟩⟩
        simp [CreateGLTexture, glGenTexture, registerTexture, h3, h4, hcap]
      · refine ⟨false, m, (glGenTexture g).2, ?_, ?_, fun _ => rfl,
          fun hb => by simp at hb⟩
        · simp [CreateGLTexture, glGenTexture, registerTexture, h3, h4]
        · simp [h3, h4]

/-- A concrete 3-channel decode result used by witnesses. -/
def rgbImage : ImageData := { width := 64, height := 64, colorChannels := 3 }

/-- Witness for `createGLTexture_failure_iff_and_state` at a concrete
3-channel decode into the empty registry. -/
theorem createGLTexture_failure_iff_and_state_witness :
    initialSceneManager.textureIDs.length < 16 ∧
    ∃ b m2 g2,
      CreateGLTexture (some rgbImage) "Floor" initialSceneManager initialGLState
        = some (b, m2, g2) ∧
      ((b = false) ↔ (some rgbImage = none ∨ ∃ img, some rgbImage = some img ∧
        img.colorChannels ≠ 3 ∧ img.colorChannels ≠ 4)) ∧
      (b = false → m2 = initialSceneManager) ∧
      (b = true →
        m2.textureIDs = initialSceneManager.textureIDs ++
          [{ ID := initialGLState.nextName, tag := "Floor" }] ∧
        m2.pShaderNull = initialSceneManager.pShaderNull ∧
        m2.shader = initialSceneManager.shader ∧
        m2.objectMaterials = initialSceneManager.objectMaterials) :=
  ⟨by decide,
   createGLTexture_failure_iff_and_state (some rgbImage) "Floor"
     initialSceneManager initialGLState (by decide)⟩

/-- Written from the spec's words: first-match linear search over
insertion order returning the matching entry's slot index, or the −1
sentinel on a miss. -/
def lookupSlotSpec (tag : String) (l : List TEXTURE_ID) : Int :=
  match l.findIdx? (fun e => e.tag == tag) with
  | some i => (i : Int)
  | none => -1

/-- Written from the spec's words: first-match linear search over
insertion order returning the matching entry's GPU handle, or the −1
sentinel on a miss. -/
def lookupHandleSpec (tag : String) (l : List TEXTURE_ID) : Int :=
  match l.find? (fun e => e.tag == tag) with
  | some e => (e.ID : Int)
  | none => -1

lemma findTextureSlotLoop_eq_findIdx (tag : String) :
    ∀ (l : List TEXTURE_ID) (i : Nat),
      findTextureSlotLoop l tag (i : Int) =
        match l.findIdx? (fun e => e.tag == tag) with
        | some j => ((j + i : Nat) : Int)
        | none => -1
  | [], i => by simp [findTextureSlotLoop, List.findIdx?]
  | e :: rest, i => by
    by_cases he : e.tag = tag
    · simp [findTextureSlotLoop, he, List.findIdx?_cons]
    · have hi : (i : Int) + 1 = ((i + 1 : Nat) : Int) := by push_cast; ring
      have ih := findTextureSlotLoop_eq_findIdx tag rest (i + 1)
      simp only [findTextureSlotLoop, he, if_false, hi, ih, List.findIdx?_cons]
      simp only [he, beq_iff_eq, if_false]
      cases hf : rest.findIdx? (fun e => e.tag == tag) with
      | none => simp [hf]
      | some j =>
        simp [hf]
        push_cast
        ring

lemma findTextureIDLoop_eq_find (tag : String) :
    ∀ l : List TEXTURE_ID,
      findTextureIDLoop l tag =
        match l.find? (fun e => e.tag == tag) with
        | some e => (e.ID : Int)
        | none => -1
  | [] => by simp [findTextureIDLoop]
  | e :: rest => by
    by_cases he : e.tag = tag
    · simp [findTextureIDLoop, he, List.find?_cons]
    · have ih := findTextureIDLoop_eq_find tag rest
      simp [findTextureIDLoop, he, List.find?_cons, ih]

lemma findTextureSlotLoop_append_fresh (tag : String) (x : TEXTURE_ID)
    (hx : x.tag = tag) :
    ∀ (l : List TEXTURE_ID) (i : Nat), (∀ e ∈ l, e.tag ≠ tag) →
      findTextureSlotLoop (l ++ [x]) tag (i : Int) = ((i + l.length : Nat) : Int)
  | [], i, _ => by simp [findTextureSlotLoop, hx]
  | e :: rest, i, h => by
    have he : e.tag ≠ tag := h e (List.mem_cons_self e rest)
    have hr : ∀ e2 ∈ rest, e2.tag ≠ tag :=
      fun e2 hm => h e2 (List.mem_cons_of_mem e hm)
    have hi : (i : Int) + 1 = ((i + 1 : Nat) : Int) := by push_cast; ring
    have ih := findTextureSlotLoop_append_fresh tag x hx rest (i + 1) hr
    rw [List.cons_append]
    simp only [findTextureSlotLoop, he, if_false]
    rw [hi, ih]
    push_cast [List.length_cons]
    ring

lemma findTextureIDLoop_append_fresh (tag : String) (x : TEXTURE_ID)
    (hx : x.tag = tag) :
    ∀ l : List TEXTURE_ID, (∀ e ∈ l, e.tag ≠ tag) →
      findTextureIDLoop (l ++ [x]) tag = (x.ID : Int)
  | [], _ => by simp [findTextureIDLoop, hx]
  | e :: rest, h => by
    have he : e.tag ≠ tag := h e (List.mem_cons_self e rest)
    have hr : ∀ e2 ∈ rest, e2.tag ≠ tag :=
      fun e2 hm => h e2 (List.mem_cons_of_mem e hm)
    have ih := findTextureIDLoop_append_fresh tag x hx rest hr
    simp [findTextureIDLoop, he, ih]

/-- **C7**: `FindTextureSlot` returns the index of the first registry
entry (in insertion order) whose tag matches and `FindTextureID` that
entry's GPU handle, both returning the −1 sentinel when no entry matches
(refinement against spec-worded first-match lookups); consequently, after
a successful load of a previously-unregistered tag, `FindTextureSlot`
returns the slot index assigned at load time (the pre-load count) and
`FindTextureID` the handle created at load time. -/
theorem findTexture_first_match_and_round_trip :
    (∀ (tag : String) (m : SceneManager),
      FindTextureSlot tag m = lookupSlotSpec tag m.textureIDs) ∧
    (∀ (tag : String) (m : SceneManager),
      FindTextureID tag m = lookupHandleSpec tag m.textureIDs) ∧
    (∀ (tag : String) (m : SceneManager) (g : GLState) (img : ImageData)
        (b : Bool) (m2 : SceneManager) (g2 : GLState),
      (img.colorChannels = 3 ∨ img.colorChannels = 4) →
      m.textureIDs.length < 16 →
      (∀ e ∈ m.textureIDs, e.tag ≠ tag) →
      CreateGLTexture (some img) tag m g = some (b, m2, g2) →
      b = true ∧
      FindTextureSlot tag m2 = (m.textureIDs.length : Int) ∧
      FindTextureID tag m2 = (g.nextName : Int)) := by
  refine ⟨?_, ?_, ?_⟩
  · intro tag m
    have h := findTextureSlotLoop_eq_findIdx tag m.textureIDs 0
    simp only [Nat.cast_zero, Nat.add_zero] at h
    simpa [FindTextureSlot, lookupSlotSpec] using h
  · intro tag m
    have h := findTextureIDLoop_eq_find tag m.textureIDs
    simpa [FindTextureID, lookupHandleSpec] using h
  · intro tag m g img b m2 g2 hch hcap hfresh hcr
    have hm2 : b = true ∧
        m2.textureIDs = m.textureIDs ++ [{ ID := g.nextName, tag := tag }] := by
      rcases hch with h3 | h4
      · simp [CreateGLTexture, glGenTexture, registerTexture, h3, hcap] at hcr
        exact ⟨hcr.1, by rw [← hcr.2.1]⟩
      · by_cases h3 : img.colorChannels = 3
        · simp [CreateGLTexture, glGenTexture, registerTexture, h3, hcap] at hcr
          exact ⟨hcr.1, by rw [← hcr.2.1]⟩
        · simp [CreateGLTexture, glGenTexture, registerTexture, h3, h4, hcap] at hcr
          exact ⟨hcr.1, by rw [← hcr.2.1]⟩
    refine ⟨hm2.1, ?_, ?_⟩
    · have h := findTextureSlotLoop_append_fresh tag
        { ID := g.nextName, tag := tag } rfl m.textureIDs 0 hfresh
      simp only [Nat.cast_zero, Nat.zero_add] at h
      simpa [FindTextureSlot, hm2.2] using h
    · have h := findTextureIDLoop_append_fresh tag
        { ID := g.nextName, tag := tag } rfl m.textureIDs hfresh
      simpa [FindTextureID, hm2.2] using h

/-- Witness for `findTexture_first_match_and_round_trip`: loading the tag
"Floor" into the empty registry and looking it up again. -/
theorem findTexture_first_match_and_round_trip_witness :
    (rgbImage.colorChannels = 3 ∨ rgbImage.colorChannels = 4) ∧
    initialSceneManager.textureIDs.length < 16 ∧
    (∀ e ∈ initialSceneManager.textureIDs, e.tag ≠ "Floor") ∧
    ∃ b m2 g2,
      CreateGLTexture (some rgbImage) "Floor" initialSceneManager initialGLState
        = some (b, m2, g2) ∧
      b = true ∧
      FindTextureSlot "Floor" m2 = (initialSceneManager.textureIDs.length : Int) ∧
      FindTextureID "Floor" m2 = (initialGLState.nextName : Int) := by
  refine ⟨Or.inl rfl, by decide, by simp [initialSceneManager], ?_⟩
  refine ⟨true,
    { initialSceneManager with textureIDs := [{ ID := 1, tag := "Floor" }] },
    { nextName := 2, genNames := [1], deletedNames := [] }, rfl, ?_⟩
  exact findTexture_first_match_and_round_trip.2.2 "Floor" initialSceneManager
    initialGLState rgbImage true
    { initialSceneManager with textureIDs := [{ ID := 1, tag := "Floor" }] }
    { nextName := 2, genNames := [1], deletedNames := [] }
    (Or.inl rfl) (by decide) (by simp [initialSceneManager]) rfl

/-- One step of the sixteen-load sequence: a `CreateGLTexture` call whose
Boolean return is collected. -/
def loadStep (acc : List Bool × SceneManager × GLState) (tag : String) :
    Option (List Bool × SceneManager × GLState) :=
  (CreateGLTexture (some rgbImage) tag acc.2.1 acc.2.2).map
    (fun r => (acc.1 ++ [r.1], r.2.1, r.2.2))

/-- The sixteen distinct tags loaded before the capacity-overrun call. -/
def sixteenTags : List String :=
  ["T00", "T01", "T02", "T03", "T04", "T05", "T06", "T07",
   "T08", "T09", "T10", "T11", "T12", "T13", "T14", "T15"]

/-- Sixteen successive `CreateGLTexture` calls with distinct tags and
valid 3-channel decodes, starting from the empty registry, collecting each
call's Boolean return. -/
def sixteenLoads : Option (List Bool × SceneManager × GLState) :=
  sixteenTags.foldlM loadStep ([], initialSceneManager, initialGLState)

/-- The registry and GL state after `sixteenLoads`: sixteen entries at
slot indices 0-15, handles 1-16. -/
def full16Manager : SceneManager :=
  { initialSceneManager with textureIDs :=
    [{ ID := 1, tag := "T00" }, { ID := 2, tag := "T01" },
     { ID := 3, tag := "T02" }, { ID := 4, tag := "T03" },
     { ID := 5, tag := "T04" }, { ID := 6, tag := "T05" },
     { ID := 7, tag := "T06" }, { ID := 8, tag := "T07" },
     { ID := 9, tag := "T08" }, { ID := 10, tag := "T09" },
     { ID := 11, tag := "T10" }, { ID := 12, tag := "T11" },
     { ID := 13, tag := "T12" }, { ID := 14, tag := "T13" },
     { ID := 15, tag := "T14" }, { ID := 16, tag := "T15" }] }

/-- The GL allocator state after `sixteenLoads`. -/
def full16GL : GLState :=
  { nextName := 17, genNames := [1, 2, 3, 4, 5, 6, 7, 8, 9, 10, 11, 12, 13, 14, 15, 16],
    deletedNames := [] }

/-- **C6** (code defect, evaluated at the failing input): sixteen
successful loads with distinct tags all succeed and occupy slot indices
0 through 15, but the seventeenth call with a valid decode is *not*
rejected with a reported capacity error: the source stores through
`m_textureIDs[16]` in a 16-element array, an out-of-bounds write
(undefined behavior, `none` in the model). -/
theorem createGLTexture_17th_load_out_of_bounds :
    sixteenLoads = some (List.replicate 16 true, full16Manager, full16GL) ∧
    FindTextureSlot "T00" full16Manager = 0 ∧
    FindTextureSlot "T15" full16Manager = 15 ∧
    full16Manager.textureIDs.length = 16 ∧
    CreateGLTexture (some rgbImage) "T16" full16Manager full16GL = none := by
  refine ⟨by decide, by decide, by decide, by decide, by decide⟩

/-- A registry holding one loaded texture (handle 7, tag "Floor") with
the matching GL allocator state. -/
def oneTexManager : SceneManager :=
  { initialSceneManager with textureIDs := [{ ID := 7, tag := "Floor" }] }

/-- GL allocator state in which handle 7 is allocated. -/
def oneTexGL : GLState := { nextName := 8, genNames := [7], deletedNames := [] }

/-- **C8** (code defect, evaluated at the failing input): on a registry
holding handle 7, `DestroyGLTextures` deletes nothing — its loop calls
`glGenTextures`, not `glDeleteTextures`, so the deleted-names list stays
empty, the stored entry's handle is *replaced* by the freshly allocated
name 8, and the original handle 7 is left allocated. -/
theorem destroyGLTextures_reallocates_not_releases :
    (DestroyGLTextures oneTexManager oneTexGL).2.deletedNames = [] ∧
    (DestroyGLTextures oneTexManager oneTexGL).1.textureIDs =
      [{ ID := 8, tag := "Floor" }] ∧
    (DestroyGLTextures oneTexManager oneTexGL).2.genNames = [7, 8] ∧
    (DestroyGLTextures oneTexManager oneTexGL).2.nextName = 9 := by
  refine ⟨rfl, rfl, rfl, rfl⟩

lemma findTextureSlotLoop_of_notMem (tag : String) :
    ∀ (l : List TEXTURE_ID) (i : Int), (∀ e ∈ l, e.tag ≠ tag) →
      findTextureSlotLoop l tag i = -1
  | [], i, _ => rfl
  | e :: rest, i, h => by
    have he : e.tag ≠ tag := h e (List.mem_cons_self e rest)
    have hr : ∀ e2 ∈ rest, e2.tag ≠ tag :=
      fun e2 hm => h e2 (List.mem_cons_of_mem e hm)
    simp [findTextureSlotLoop, he, findTextureSlotLoop_of_notMem tag rest (i + 1) hr]

lemma createGLTexture_invariants (d : Option ImageData) (tag : String)
    (m : SceneManager) (g : GLState) (b : Bool) (m2 : SceneManager) (g2 : GLState)
    (h : CreateGLTexture d tag m g = some (b, m2, g2)) :
    m2.pShaderNull = m.pShaderNull ∧ m2.shader = m.shader ∧
    m2.objectMaterials = m.objectMaterials ∧
    (m2.textureIDs = m.textureIDs ∨
      m2.textureIDs = m.textureIDs ++ [{ ID := g.nextName, tag := tag }]) := by
  cases d with
  | none =>
    simp [CreateGLTexture] at h
    obtain ⟨-, h2, -⟩ := h
    rw [← h2]
    exact ⟨rfl, rfl, rfl, Or.inl rfl⟩
  | some img =>
    by_cases hcap : m.textureIDs.length < 16
    · by_cases h3 : img.colorChannels = 3
      · simp [CreateGLTexture, glGenTexture, registerTexture, h3, hcap] at h
        obtain ⟨-, h2, -⟩ := h
        rw [← h2]
        exact ⟨rfl, rfl, rfl, Or.inr rfl⟩
      · by_cases h4 : img.colorChannels = 4
        · simp [CreateGLTexture, glGenTexture, registerTexture, h3, h4, hcap] at h
          obtain ⟨-, h2, -⟩ := h
          rw [← h2]
          exact ⟨rfl, rfl, rfl, Or.inr rfl⟩
        · simp [CreateGLTexture, glGenTexture, registerTexture, h3, h4] at h
          obtain ⟨-, h2, -⟩ := h
          rw [← h2]
          exact ⟨rfl, rfl, rfl, Or.inl rfl⟩
    · by_cases h3 : img.colorChannels = 3
      · simp [CreateGLTexture, glGenTexture, registerTexture, h3, hcap] at h
      · by_cases h4 : img.colorChannels = 4
        · simp [CreateGLTexture, glGenTexture, registerTexture, h3, h4, hcap] at h
        · simp [CreateGLTexture, glGenTexture, registerTexture, h3, h4] at h
          obtain ⟨-, h2, -⟩ := h
          rw [← h2]
          exact ⟨rfl, rfl, rfl, Or.inl rfl⟩

lemma createGLTexture_preserves_notCake (d : Option ImageData) (tag : String)
    (m : SceneManager) (g : GLState) (b : Bool) (m2 : SceneManager) (g2 : GLState)
    (h : CreateGLTexture d tag m g = some (b, m2, g2)) (htag : tag ≠ "Cake")
    (hm : ∀ e ∈ m.textureIDs, e.tag ≠ "Cake") :
    ∀ e ∈ m2.textureIDs, e.tag ≠ "Cake" := by
  obtain ⟨-, -, -, ht⟩ := createGLTexture_invariants d tag m g b m2 g2 h
  cases ht with
  | inl he => rw [he]; exact hm
  | inr he =>
    rw [he]
    intro e hme
    rcases List.mem_append.mp hme with h1 | h1
    · exact hm e h1
    · rw [List.mem_singleton.mp h1]
      exact htag

lemma prepareScene_spec (d1 d2 d3 d4 d5 d6 d7 d8 d9 : Option ImageData)
    (m : SceneManager) (g : GLState)
    (hprep : PrepareScene d1 d2 d3 d4 d5 d6 d7 d8 d9 initialSceneManager
      initialGLState = some (m, g)) :
    m.pShaderNull = false ∧ m.objectMaterials = sceneMaterials ∧
    ∀ e ∈ m.textureIDs, e.tag ≠ "Cake" := by
  simp only [PrepareScene, LoadSceneTextures, BindGLTextures, bind,
    Option.bind_eq_some, Option.pure_def, Option.some.injEq,
    Prod.mk.injEq] at hprep
  obtain ⟨⟨mL, gL⟩, hload, mS, hS, hfin⟩ := hprep
  obtain ⟨⟨b1, m1, g1⟩, h1, ⟨b2, m2, g2⟩, h2, ⟨b3, m3, g3⟩, h3,
    ⟨b4, m4, g4⟩, h4, ⟨b5, m5, g5⟩, h5, ⟨b6, m6, g6⟩, h6,
    ⟨b7, m7, g7⟩, h7, ⟨b8, m8, g8⟩, h8, ⟨b9, m9, g9⟩, h9,
    hlast⟩ := hload
  have hL1 : m9 = mL := congrArg Prod.fst hlast
  have hL2 : g9 = gL := congrArg Prod.snd hlast
  subst hL1
  subst hL2
  have i1 := createGLTexture_invariants _ _ _ _ _ _ _ h1
  have i2 := createGLTexture_invariants _ _ _ _ _ _ _ h2
  have i3 := createGLTexture_invariants _ _ _ _ _ _ _ h3
  have i4 := createGLTexture_invariants _ _ _ _ _ _ _ h4
  have i5 := createGLTexture_invariants _ _ _ _ _ _ _ h5
  have i6 := createGLTexture_invariants _ _ _ _ _ _ _ h6
  have i7 := createGLTexture_invariants _ _ _ _ _ _ _ h7
  have i8 := createGLTexture_invariants _ _ _ _ _ _ _ h8
  have i9 := createGLTexture_invariants _ _ _ _ _ _ _ h9
  have c0 : ∀ e ∈ initialSceneManager.textureIDs, e.tag ≠ "Cake" := by
    simp [initialSceneManager]
  have c1 := createGLTexture_preserves_notCake _ _ _ _ _ _ _ h1 (by decide) c0
  have c2 := createGLTexture_preserves_notCake _ _ _ _ _ _ _ h2 (by decide) c1
  have c3 := createGLTexture_preserves_notCake _ _ _ _ _ _ _ h3 (by decide) c2
  have c4 := createGLTexture_preserves_notCake _ _ _ _ _ _ _ h4 (by decide) c3
  have c5 := createGLTexture_preserves_notCake _ _ _ _ _ _ _ h5 (by decide) c4
  have c6 := createGLTexture_preserves_notCake _ _ _ _ _ _ _ h6 (by decide) c5
  have c7 := createGLTexture_preserves_notCake _ _ _ _ _ _ _ h7 (by decide) c6
  have c8 := createGLTexture_preserves_notCake _ _ _ _ _ _ _ h8 (by decide) c7
  have c9 := createGLTexture_preserves_notCake _ _ _ _ _ _ _ h9 (by decide) c8
  have p9 : m9.pShaderNull = false := by
    rw [i9.1, i8.1, i7.1, i6.1, i5.1, i4.1, i3.1, i2.1, i1.1]
    rfl
  have q9 : m9.objectMaterials = [] := by
    rw [i9.2.2.1, i8.2.2.1, i7.2.2.1, i6.2.2.1, i5.2.2.1, i4.2.2.1,
      i3.2.2.1, i2.2.2.1, i1.2.2.1]
    rfl
  simp only [SetupSceneLights, p9, Bool.false_eq_true, if_false,
    Option.some.injEq] at hS
  subst hS
  obtain ⟨hm, -⟩ := hfin
  subst hm
  refine ⟨rfl, ?_, ?_⟩
  · simp [DefineObjectMaterials, q9]
  · simpa [DefineObjectMaterials] using c9
set_option maxHeartbeats 1600000 in
/-- **C9**: in the shipped scene, the cake-body and cake-top draw steps
each call `SetShaderTexture("Cake")` immediately after setting the valid
textures "Frost_sides" / "Frost"; since `LoadSceneTextures` never
registers a texture tagged "Cake" (it is only a material tag), whatever
the nine decode outcomes were, the sampler uniform observed at those two
draw calls (trace indices 13 and 14, both cylinders) is the not-found
sentinel −1, overriding the valid slot set on the line before. -/
theorem renderScene_cake_draws_push_sentinel
    (d1 d2 d3 d4 d5 d6 d7 d8 d9 : Option ImageData)
    (m : SceneManager) (g : GLState)
    (hprep : PrepareScene d1 d2 d3 d4 d5 d6 d7 d8 d9 initialSceneManager
      initialGLState = some (m, g)) :
    (RenderScene m).map (fun r =>
      ((r.2[13]?).map (fun e => (e.mesh, e.shader.objectTexture)),
       (r.2[14]?).map (fun e => (e.mesh, e.shader.objectTexture)))) =
      some (some ("cylinder", -1), some ("cylinder", -1)) := by
  obtain ⟨hp, hmats, hcake⟩ :=
    prepareScene_spec d1 d2 d3 d4 d5 d6 d7 d8 d9 m g hprep
  have hslot : findTextureSlotLoop m.textureIDs "Cake" 0 = -1 :=
    findTextureSlotLoop_of_notMem "Cake" m.textureIDs 0 hcake
  simp [RenderScene, drawSteps, runSteps, renderFloor, renderHatCone,
    renderHatSphere, renderNapkin, renderTableTop, renderTableLeg,
    renderPresent, renderBalloon, renderKnot, renderString, renderCakeBody,
    renderCakeTop, renderPlate, renderCandle, SetTransformations,
    SetShaderColor, SetShaderTexture, SetTextureUVScale, SetShaderMaterial,
    FindMaterial, findMaterialLoop, FindTextureSlot, defaultOBJECT_MATERIAL,
    sceneMaterials, bind, Option.bind, hp, hmats, hslot]

/-- The `SceneManager` state `PrepareScene` yields when all nine decodes
fail: no textures registered, lights written, materials defined. -/
def noTexPrepared : SceneManager :=
  { pShaderNull := false,
    shader :=
      { initialShaderState with
        bUseLighting := true, lightWrites := sceneLightWrites },
    textureIDs := [], objectMaterials := sceneMaterials }

/-- Witness for `renderScene_cake_draws_push_sentinel` at the concrete
run in which all nine decodes fail. -/
theorem renderScene_cake_draws_push_sentinel_witness :
    (PrepareScene none none none none none none none none none
      initialSceneManager initialGLState = some (noTexPrepared, initialGLState)) ∧
    (RenderScene noTexPrepared).map (fun r =>
      ((r.2[13]?).map (fun e => (e.mesh, e.shader.objectTexture)),
       (r.2[14]?).map (fun e => (e.mesh, e.shader.objectTexture)))) =
      some (some ("cylinder", -1), some ("cylinder", -1)) :=
  ⟨rfl, renderScene_cake_draws_push_sentinel none none none none none none
    none none none noTexPrepared initialGLState rfl⟩
